import Mathlib

/-!
Verification of the 2D parametric geometry core of the turbodesigner
repository: the firtree attachment profile builder
(`turbodesigner/attachments/firetree.py`) and the CFD flow-path outline
composer (`turbodesigner/cfd/geometry_2D.py`).

The Python code is shallowly embedded:
* exact geometric constructions are modelled over `ℝ` (with real `cos`,
  `sin`, `arctan`) or over `ℚ` where no transcendental function occurs;
* numpy floating-point behaviour around division by zero is modelled by
  `NpFloat := Option ℚ`, where `none` stands for a non-finite value
  (`inf`, `-inf` or `nan`): numpy never raises on float division by zero,
  it emits a non-finite value, and every arithmetic operation on a
  non-finite operand used in the embedded code again yields a non-finite
  value;
* numpy arrays of 2D points become `List (α × α)`; the slicing idioms
  `a[:-1]`, `np.flip(a, axis=0)` and broadcast `a + p` become
  `List.dropLast`, `List.reverse` and `List.map (· + p)`.
-/

namespace TD

/-! ## Numpy float-level model of `get_line` (firetree.py, lines 6-17)

`NpFloat` is `Option ℚ`: `some q` is a finite float of exact value `q`,
`none` is any non-finite value (`inf`/`-inf`/`nan`).  Division by zero
produces a non-finite value (never an exception), and in the expressions
of `get_line` every operation with a non-finite operand is again
non-finite. -/

abbrev NpFloat := Option ℚ

def npMul : NpFloat → NpFloat → NpFloat
  | some a, some b => some (a * b)
  | _, _ => none

def npSub : NpFloat → NpFloat → NpFloat
  | some a, some b => some (a - b)
  | _, _ => none

def npDiv : NpFloat → NpFloat → NpFloat
  | some a, some b => if b = 0 then none else some (a / b)
  | _, _ => none

/-- Float-level embedding of `get_line` (firetree.py lines 6-17):
`m = (y2-y1)/(x2-x1)`, `b = y2 - m*x2` unless `y_int` is given (then 0),
each output point is `((y-b)/m, y)`.  The input points and requested
y-values are finite; non-finite intermediate results are tracked. -/
def get_lineF (ys : List ℚ) (point1 point2 : ℚ × ℚ) (y_int : Option ℤ) :
    List (NpFloat × ℚ) :=
  let m := npDiv (some (point2.2 - point1.2)) (some (point2.1 - point1.1))
  let b := match y_int with
    | none => npSub (some point2.2) (npMul m (some point2.1))
    | some _ => some 0
  ys.map (fun y => (npDiv (npSub (some y) b) m, y))

/-! ## Embedding of `geometry_2D.py` over `ℚ`

The outline composer performs only field arithmetic on externally
supplied airfoil coordinates, so it is embedded exactly over `ℚ`. -/

/-- A blade row (the `BladeRow` surface used by `geometry_2D.py`):
blade spacing `s` and per-station airfoil coordinate lists
(`row.airfoils[station_number].get_coords()`). -/
structure BladeRow2D where
  s : ℚ
  airfoils : List (List (ℚ × ℚ))

/-- A turbomachinery stage: rotor and stator rows plus axial gaps. -/
structure Stage2D where
  rotor : BladeRow2D
  stator : BladeRow2D
  stage_gap : ℚ
  row_gap : ℚ

/-- A turbomachinery assembly: stage count `N_stg` and the stage list. -/
structure Turbomachinery2D where
  N_stg : ℕ
  stages : List Stage2D

/-- `np.max` over a list of rationals (0 on the empty list; every use in
the embedded code is on a nonempty list). -/
def qmax : List ℚ → ℚ
  | [] => 0
  | x :: xs => xs.foldl max x

/-- `np.min` over a list of rationals (0 on the empty list). -/
def qmin : List ℚ → ℚ
  | [] => 0
  | x :: xs => xs.foldl min x

/-- `airfoil[np.argmin(airfoil[:, 0])]`: the first point of least
x-coordinate (`np.argmin` returns the first minimising index). -/
def argminX : List (ℚ × ℚ) → ℚ × ℚ
  | [] => (0, 0)
  | p :: ps => ps.foldl (fun best q => if q.1 < best.1 then q else best) p

/-- `airfoil[np.argmax(airfoil[:, 0])]`: the first point of greatest
x-coordinate. -/
def argmaxX : List (ℚ × ℚ) → ℚ × ℚ
  | [] => (0, 0)
  | p :: ps => ps.foldl (fun best q => if best.1 < q.1 then q else best) p

/-- The `CFDGeometry` dataclass (geometry_2D.py lines 10-22). -/
structure CFDGeometry where
  top_outline : List (ℚ × ℚ)
  bottom_outline : List (ℚ × ℚ)
  airfoils : List (List (ℚ × ℚ))

/-- Embedding of `TurbomachineryGeometry2D.row_geometry`
(geometry_2D.py lines 49-87). -/
def row_geometry (row : BladeRow2D) (station_number : ℕ)
    (leading_edge_gap trailing_edge_gap : ℚ) (num_blades : ℕ) :
    CFDGeometry :=
  let blade_spacing := row.s
  let height := blade_spacing * num_blades
  let airfoil := row.airfoils.getD station_number []
  let airfoil_width := qmax (airfoil.map Prod.fst) - qmin (airfoil.map Prod.fst)
  let airfoil_leading_pnt := argminX airfoil
  let airfoil_trailing_pnt := argmaxX airfoil
  let airfoil_offset : ℚ × ℚ :=
    (leading_edge_gap - qmin (airfoil.map Prod.fst),
     -airfoil_leading_pnt.2 + height / 2 - blade_spacing / 2)
  let airfoils := (List.range num_blades).map
    (fun i => airfoil.map (fun p => p + airfoil_offset - ((0 : ℚ), (i : ℚ) * blade_spacing)))
  let airfoil_trailing_height_offset := airfoil_trailing_pnt.2 - airfoil_leading_pnt.2
  { top_outline := [
      ((0 : ℚ), height / 2),
      (leading_edge_gap, height / 2),
      (leading_edge_gap + airfoil_width, height / 2 + airfoil_trailing_height_offset),
      (leading_edge_gap + airfoil_width + trailing_edge_gap,
        height / 2 + airfoil_trailing_height_offset)]
    bottom_outline := [
      (leading_edge_gap + airfoil_width + trailing_edge_gap,
        -height / 2 + airfoil_trailing_height_offset),
      (leading_edge_gap + airfoil_width, -height / 2 + airfoil_trailing_height_offset),
      (leading_edge_gap, -height / 2),
      ((0 : ℚ), -height / 2)]
    airfoils := airfoils }

/-- Embedding of `TurbomachineryGeometry2D.stage_geometry`
(geometry_2D.py lines 89-121).  Note: line 100 of the source assigns
`stator_airfoil = rotor_geometry.airfoils[0]`; this is reproduced
verbatim. -/
def stage_geometry (stage next_stage : Stage2D) (station_number : ℕ)
    (num_blades : ℕ) : CFDGeometry :=
  let rotor_geometry :=
    row_geometry stage.rotor station_number (stage.stage_gap / 2) (stage.row_gap / 2) num_blades
  let stator_geometry :=
    row_geometry stage.stator station_number (stage.row_gap / 2) (next_stage.stage_gap / 2) num_blades
  let rotor_airfoil := rotor_geometry.airfoils.getD 0 []
  let stator_airfoil := rotor_geometry.airfoils.getD 0 []
  let rotor_airfoil_trailing_pnt := argmaxX rotor_airfoil
  let stator_airfoil_leading_pnt := argminX stator_airfoil
  let stator_offset : ℚ × ℚ :=
    (qmax (rotor_geometry.top_outline.map Prod.fst),
     rotor_airfoil_trailing_pnt.2 - stator_airfoil_leading_pnt.2)
  let stator_airfoils := stator_geometry.airfoils.map (List.map (· + stator_offset))
  { top_outline :=
      rotor_geometry.top_outline ++ stator_geometry.top_outline.map (· + stator_offset)
    bottom_outline :=
      stator_geometry.bottom_outline.map (· + stator_offset) ++ rotor_geometry.bottom_outline
    airfoils := rotor_geometry.airfoils ++ stator_airfoils }

/-- Placeholder stage used for the (never reached) out-of-range list
accesses of the `stages[i]` indexing in the assembly loop. -/
def emptyStage : Stage2D := ⟨⟨0, []⟩, ⟨0, []⟩, 0, 0⟩

/-- Embedding of `TurbomachineryGeometry2D.get_turbomachinery_outline`
(geometry_2D.py lines 123-163): iterate `i` over `range N_stg`, pair
`stages[i]` with `stages[i+1]` (the last stage with itself), and for
`i > 0` offset the stage geometry horizontally by the maximum x of the
accumulated top chain, appending top outlines and prepending bottom
outlines.  The final result is the top chain followed by the bottom
chain. -/
def get_turbomachinery_outline (tm : Turbomachinery2D)
    (station_number : ℕ) (num_blades : ℕ) : List (ℚ × ℚ) :=
  let chains := (List.range tm.N_stg).foldl
    (fun (acc : List (ℚ × ℚ) × List (ℚ × ℚ)) i =>
      let stage := tm.stages.getD i emptyStage
      let next_stage := if i + 1 < tm.N_stg then tm.stages.getD (i + 1) emptyStage else stage
      let sg := stage_geometry stage next_stage station_number num_blades
      if i = 0 then
        (sg.top_outline, sg.bottom_outline)
      else
        let stage_outline_offset : ℚ × ℚ := (qmax (acc.1.map Prod.fst), 0)
        (acc.1 ++ sg.top_outline.map (· + stage_outline_offset),
         sg.bottom_outline.map (· + stage_outline_offset) ++ acc.2))
    ([], [])
  chains.1 ++ chains.2

/-! ## Concrete fixtures used by counterexamples and bug evaluations -/

/-- Rotor row with spacing 1 and an airfoil rising from (0,0) to (1,1/2). -/
def rowA : BladeRow2D := ⟨1, [[(0, 0), (1, 1/2)]]⟩

/-- Stator row with spacing 2 and the same airfoil as `rowA`. -/
def rowB : BladeRow2D := ⟨2, [[(0, 0), (1, 1/2)]]⟩

/-- Stage whose rotor and stator have different blade spacings. -/
def stageC1 : Stage2D := ⟨rowA, rowB, 0, 0⟩

/-- Row with spacing 1 and a level airfoil (zero leading-to-trailing rise). -/
def rowZ : BladeRow2D := ⟨1, [[(0, 0), (1, 0)]]⟩

/-- Stage of two equal rows with zero-rise airfoils, gaps 1. -/
def stageZ : Stage2D := ⟨rowZ, rowZ, 1, 1⟩

/-- Assembly of 3 equal stages with zero-rise airfoils. -/
def tmZ : Turbomachinery2D := ⟨3, [stageZ, stageZ, stageZ]⟩

/-- Row with spacing 1 and an airfoil rising by 1/2. -/
def rowR : BladeRow2D := ⟨1, [[(0, 0), (1, 1/2)]]⟩

/-- Stage of two equal rows with rising airfoils, gaps 1. -/
def stageR : Stage2D := ⟨rowR, rowR, 1, 1⟩

/-- Assembly of 3 equal stages with rising airfoils. -/
def tmR : Turbomachinery2D := ⟨3, [stageR, stageR, stageR]⟩

/-- Row with spacing 1 and an airfoil rising by 1. -/
def rowW : BladeRow2D := ⟨1, [[(0, 0), (1, 1)]]⟩

/-! ## Embedding of `firetree.py` over `ℝ`

The attachment profile builder uses trigonometric derivations, so it is
embedded over the real numbers with exact `Real.cos`, `Real.sin`,
`Real.arctan`, `Real.arcsin` and `Real.tan` standing for the numpy
float routines. -/

/-- A 2D point. -/
abbrev Pt := ℝ × ℝ

/-- `np.arctan2 y x` (the value is irrelevant to the proved properties,
but the standard quadrant-corrected definition is used). -/
noncomputable def atan2 (y x : ℝ) : ℝ :=
  if 0 < x then Real.arctan (y / x)
  else if x < 0 then
    (if 0 ≤ y then Real.arctan (y / x) + Real.pi else Real.arctan (y / x) - Real.pi)
  else (if 0 < y then Real.pi / 2 else if y < 0 then -(Real.pi / 2) else 0)

/-- `np.linspace a b num` with the `endpoint` flag: `num` values starting
at `a` with step `(b-a)/(num-1)` (endpoint included) or `(b-a)/num`
(endpoint excluded).  For `num = 1` with endpoint the step divides by
zero; Lean's `x/0 = 0` convention reproduces numpy's `[a]` here. -/
noncomputable def linspace (a b : ℝ) (num : ℕ) (ep : Bool) : List ℝ :=
  if ep then
    (List.range num).map (fun i : ℕ => a + (i : ℝ) * ((b - a) / ((num : ℝ) - 1)))
  else
    (List.range num).map (fun i : ℕ => a + (i : ℝ) * ((b - a) / (num : ℝ)))

/-- Embedding of `get_line` (firetree.py lines 6-17) over exact reals:
`m = (y2-y1)/(x2-x1)`, `b = y2 - m*x2` unless `y_int` is given (then 0),
one point `((y-b)/m, y)` per requested y. -/
noncomputable def get_line (ys : List ℝ) (point1 point2 : Pt)
    (y_int : Option ℤ) : List Pt :=
  let m := (point2.2 - point1.2) / (point2.1 - point1.1)
  let b := match y_int with
    | none => point2.2 - m * point2.1
    | some _ => 0
  ys.map (fun y => ((y - b) / m, y))

/-- Embedding of `get_arc` (firetree.py lines 20-41): angles of the two
boundary points about `center` via `atan2`, a full turn added to the
lower angle when not clockwise, `num_points` evenly spaced angles, each
mapped to `center + radius * (cos θ, sin θ)`. -/
noncomputable def get_arc (lower_point upper_point : Pt) (radius : ℝ)
    (center : Pt) (num_points : ℕ) (is_clockwise : Bool) (ep : Bool) :
    List Pt :=
  let angle1 := atan2 (lower_point.2 - center.2) (lower_point.1 - center.1)
  let angle2 := atan2 (upper_point.2 - center.2) (upper_point.1 - center.1)
  let angle1 := if is_clockwise then angle1 else angle1 + 2 * Real.pi
  (linspace angle1 angle2 num_points ep).map
    (fun θ => (center.1 + radius * Real.cos θ, center.2 + radius * Real.sin θ))

/-- The `FirtreeAttachment` dataclass after `__post_init__`: the ten
input scalars and the derived reference points (firetree.py lines
44-106). -/
structure FirtreeAttachment where
  gamma : ℝ
  beta : ℝ
  ll : ℝ
  lu : ℝ
  Ri : ℝ
  Ro : ℝ
  R_dove : ℝ
  max_length : ℝ
  num_stages : ℕ
  disk_radius : ℝ
  origin : Pt
  outer_circle_lower_tangent : Pt
  outer_circle_upper_tangent : Pt
  outer_circle_tanget_intersect : Pt
  outer_circle_center : Pt
  inner_circle_lower_tangent : Pt
  inner_circle_upper_tangent : Pt
  inner_circle_center : Pt
  dove_circle_center : Pt
  dove_lower_point : Pt

/-- Constructor embedding `__post_init__` (firetree.py lines 76-106):
derives all reference points from the input scalars.  Note that the
source performs no parameter validation whatsoever. -/
noncomputable def mkFirtree (gamma beta ll lu Ri Ro R_dove max_length : ℝ)
    (num_stages : ℕ) (disk_radius : ℝ) : FirtreeAttachment :=
  let origin : Pt := (0, 0)
  let outer_circle_lower_tangent : Pt :=
    origin + (ll * Real.cos beta, ll * Real.sin beta)
  let outer_circle_upper_tangent : Pt :=
    outer_circle_lower_tangent + (0, 2 * Ro * Real.cos gamma)
  let outer_circle_tanget_intersect : Pt :=
    outer_circle_lower_tangent +
      (Ro * (1 - Real.sin gamma ^ 2) / Real.sin gamma, Ro * Real.cos gamma)
  let outer_circle_center : Pt :=
    outer_circle_lower_tangent + (-Ro * Real.sin gamma, Ro * Real.cos gamma)
  let inner_circle_lower_tangent : Pt :=
    outer_circle_upper_tangent + (-lu * Real.cos gamma, lu * Real.sin gamma)
  let inner_circle_upper_tangent : Pt :=
    inner_circle_lower_tangent + (0, 2 * Ri * Real.cos gamma)
  let inner_circle_center : Pt :=
    inner_circle_lower_tangent + (Ri * Real.sin beta, Ri * Real.cos beta)
  let dove_circle_center : Pt :=
    (R_dove * Real.sin beta, -R_dove * Real.cos beta)
  let dove_lower_point : Pt := dove_circle_center + (0, -R_dove)
  ⟨gamma, beta, ll, lu, Ri, Ro, R_dove, max_length, num_stages, disk_radius,
   origin, outer_circle_lower_tangent, outer_circle_upper_tangent,
   outer_circle_tanget_intersect, outer_circle_center,
   inner_circle_lower_tangent, inner_circle_upper_tangent,
   inner_circle_center, dove_circle_center, dove_lower_point⟩

/-- Embedding of `FirtreeAttachment.get_dove_arc` (lines 108-110). -/
noncomputable def get_dove_arc (a : FirtreeAttachment)
    (num_arc_points : ℕ) : List Pt :=
  get_arc a.dove_lower_point a.origin a.R_dove a.dove_circle_center
    num_arc_points false true

/-- Embedding of `FirtreeAttachment.get_top_arc` (lines 112-119). -/
noncomputable def get_top_arc (a : FirtreeAttachment) (start_point : Pt)
    (num_arc_points : ℕ) : List Pt :=
  let sector_angle := 2 * Real.arcsin ((a.max_length / 2) / a.disk_radius)
  let top_arc_left_point := start_point
  let top_arc_right_point : Pt := top_arc_left_point + (a.max_length, 0)
  let top_arc_height :=
    a.disk_radius - (a.max_length / 2) / Real.tan (sector_angle / 2)
  let disk_center : Pt :=
    (0, top_arc_left_point.2 - a.disk_radius + top_arc_height)
  get_arc top_arc_left_point top_arc_right_point a.disk_radius disk_center
    num_arc_points true true

/-- Embedding of `FirtreeAttachment.get_stage` (lines 121-138): lower
flank line (2 points), outer arc (endpoint excluded), upper flank line
(2 points), and the inner arc unless `end_stage`. -/
noncomputable def get_stage (a : FirtreeAttachment) (num_arc_points : ℕ)
    (end_stage : Bool) : List Pt :=
  let yl := linspace a.origin.2 a.outer_circle_lower_tangent.2 2 false
  let lower_flank_line := get_line yl a.origin a.outer_circle_lower_tangent none
  let yu := linspace a.outer_circle_upper_tangent.2 a.inner_circle_lower_tangent.2 2 false
  let upper_flank_line :=
    get_line yu a.outer_circle_tanget_intersect a.outer_circle_upper_tangent none
  let outer_arc := get_arc a.outer_circle_lower_tangent
    a.outer_circle_upper_tangent a.Ro a.outer_circle_center num_arc_points true false
  let inner_arc := get_arc a.inner_circle_lower_tangent
    a.inner_circle_upper_tangent a.Ri a.inner_circle_center num_arc_points false true
  lower_flank_line ++ outer_arc ++ upper_flank_line ++
    (if end_stage then [] else inner_arc)

/-- The tooth-stacking loop of `get_coords` (lines 142-152): starting
from one stage, `num_stages` times drop the accumulated chain's last
point and append the next tooth translated by that last point (the last
iteration uses the end-stage variant). -/
noncomputable def attachment_stage_side (a : FirtreeAttachment)
    (num_arc_points : ℕ) : List Pt :=
  let stage := get_stage a num_arc_points false
  (List.range a.num_stages).foldl
    (fun acc i =>
      let next_stage :=
        if i = a.num_stages - 1 then get_stage a num_arc_points true else stage
      acc.dropLast ++ next_stage.map (· + acc.getLastD (0, 0)))
    stage

/-- Lines 153-157 of `get_coords`: prepend the dove arc (dropping its
last point) and apply the horizontal centering offset placing the
chain's far end at `-max_length/2`. -/
noncomputable def attachment_left_side (a : FirtreeAttachment)
    (num_arc_points : ℕ) : List Pt :=
  let side := attachment_stage_side a num_arc_points
  let dove_arc := get_dove_arc a num_arc_points
  let attachment_center_offset : Pt :=
    (-(side.getLastD (0, 0)).1 - a.max_length / 2, 0)
  (dove_arc.dropLast ++ side).map (· + attachment_center_offset)

/-- x-negation, the mirror `np.flip(...) * np.array([-1, 1])` applies
pointwise. -/
def negx (p : Pt) : Pt := (-p.1, p.2)

/-- Lines 159-162 of `get_coords`: mirror the left side, build the top
arc from the left side's last point, and concatenate left side (drop
last), top arc (drop last), right side, and the left side's first point
closing the loop. -/
noncomputable def pre_attachment (a : FirtreeAttachment)
    (num_arc_points : ℕ) : List Pt :=
  let attachment_left := attachment_left_side a num_arc_points
  let attachment_right := attachment_left.reverse.map negx
  let top_arc := get_top_arc a (attachment_left.getLastD (0, 0)) num_arc_points
  attachment_left.dropLast ++ top_arc.dropLast ++ attachment_right ++
    [attachment_left.headD (0, 0)]

/-- `np.max` over a list of reals (0 on the empty list; every use in the
embedded code is on a nonempty list). -/
noncomputable def rmax : List ℝ → ℝ
  | [] => 0
  | x :: xs => xs.foldl max x

/-- Embedding of `FirtreeAttachment.get_coords` (lines 140-163): the
assembled contour shifted down so its maximum y becomes 0. -/
noncomputable def get_coords (a : FirtreeAttachment)
    (num_arc_points : ℕ) : List Pt :=
  let attachment := pre_attachment a num_arc_points
  attachment.map (· + ((0 : ℝ), -rmax (attachment.map Prod.snd)))

/-- Euclidean distance between two points. -/
noncomputable def distE (p q : Pt) : ℝ :=
  Real.sqrt ((p.1 - q.1) ^ 2 + (p.2 - q.2) ^ 2)

/-! ## State-passing method variants

Python methods receive `self` and could reassign its attributes; the
explicit state-passing translation returns the (possibly updated) object
alongside the result.  None of the four public operations of
`FirtreeAttachment` contains an attribute assignment, so each returns
its receiver unchanged. -/

/-- State-passing form of `get_stage`. -/
noncomputable def get_stageS (a : FirtreeAttachment) (num_arc_points : ℕ)
    (end_stage : Bool) : List Pt × FirtreeAttachment :=
  (get_stage a num_arc_points end_stage, a)

/-- State-passing form of `get_dove_arc`. -/
noncomputable def get_dove_arcS (a : FirtreeAttachment)
    (num_arc_points : ℕ) : List Pt × FirtreeAttachment :=
  (get_dove_arc a num_arc_points, a)

/-- State-passing form of `get_top_arc`. -/
noncomputable def get_top_arcS (a : FirtreeAttachment) (start_point : Pt)
    (num_arc_points : ℕ) : List Pt × FirtreeAttachment :=
  (get_top_arc a start_point num_arc_points, a)

/-- State-passing form of `get_coords`. -/
noncomputable def get_coordsS (a : FirtreeAttachment)
    (num_arc_points : ℕ) : List Pt × FirtreeAttachment :=
  (get_coords a num_arc_points, a)

/-! ## Evaluation lemmas: concrete stage geometries and outlines -/

/-- The rising-airfoil stage `stageR` evaluated through `stage_geometry`. -/
lemma sgR_eval : stage_geometry stageR stageR 0 2 =
    ⟨[(0, 1), (1/2, 1), (3/2, 3/2), (2, 3/2), (2, 3/2), (5/2, 3/2), (7/2, 2), (4, 2)],
     [(4, 0), (7/2, 0), (5/2, -1/2), (2, -1/2), (2, -1/2), (3/2, -1/2), (1/2, -1), (0, -1)],
     [[(1/2, 1/2), (3/2, 1)], [(1/2, -1/2), (3/2, 0)],
      [(5/2, 1), (7/2, 3/2)], [(5/2, 0), (7/2, 1/2)]]⟩ := by
  norm_num [stage_geometry, row_geometry, stageR, rowR, argminX, argmaxX, qmax, qmin,
    List.range_succ, Prod.ext_iff]

/-- The zero-rise stage `stageZ` evaluated through `stage_geometry`. -/
lemma sgZ_eval : stage_geometry stageZ stageZ 0 2 =
    ⟨[(0, 1), (1/2, 1), (3/2, 1), (2, 1), (2, 1), (5/2, 1), (7/2, 1), (4, 1)],
     [(4, -1), (7/2, -1), (5/2, -1), (2, -1), (2, -1), (3/2, -1), (1/2, -1), (0, -1)],
     [[(1/2, 1/2), (3/2, 1/2)], [(1/2, -1/2), (3/2, -1/2)],
      [(5/2, 1/2), (7/2, 1/2)], [(5/2, -1/2), (7/2, -1/2)]]⟩ := by
  norm_num [stage_geometry, row_geometry, stageZ, rowZ, argminX, argmaxX, qmax, qmin,
    List.range_succ, Prod.ext_iff]

set_option maxHeartbeats 1000000 in
/-- The 3-stage rising-airfoil assembly outline evaluated point by point. -/
lemma outlineR_eval : get_turbomachinery_outline tmR 0 2 =
    [(0, 1), (1/2, 1), (3/2, 3/2), (2, 3/2), (2, 3/2), (5/2, 3/2), (7/2, 2), (4, 2),
     (4, 1), (9/2, 1), (11/2, 3/2), (6, 3/2), (6, 3/2), (13/2, 3/2), (15/2, 2), (8, 2),
     (8, 1), (17/2, 1), (19/2, 3/2), (10, 3/2), (10, 3/2), (21/2, 3/2), (23/2, 2), (12, 2),
     (12, 0), (23/2, 0), (21/2, -1/2), (10, -1/2), (10, -1/2), (19/2, -1/2), (17/2, -1), (8, -1),
     (8, 0), (15/2, 0), (13/2, -1/2), (6, -1/2), (6, -1/2), (11/2, -1/2), (9/2, -1), (4, -1),
     (4, 0), (7/2, 0), (5/2, -1/2), (2, -1/2), (2, -1/2), (3/2, -1/2), (1/2, -1), (0, -1)] := by
  norm_num [get_turbomachinery_outline, tmR, List.range_succ, sgR_eval, qmax, emptyStage,
    Prod.ext_iff]

set_option maxHeartbeats 1000000 in
/-- The 3-stage zero-rise assembly outline evaluated point by point. -/
lemma outlineZ_eval : get_turbomachinery_outline tmZ 0 2 =
    [(0, 1), (1/2, 1), (3/2, 1), (2, 1), (2, 1), (5/2, 1), (7/2, 1), (4, 1),
     (4, 1), (9/2, 1), (11/2, 1), (6, 1), (6, 1), (13/2, 1), (15/2, 1), (8, 1),
     (8, 1), (17/2, 1), (19/2, 1), (10, 1), (10, 1), (21/2, 1), (23/2, 1), (12, 1),
     (12, -1), (23/2, -1), (21/2, -1), (10, -1), (10, -1), (19/2, -1), (17/2, -1), (8, -1),
     (8, -1), (15/2, -1), (13/2, -1), (6, -1), (6, -1), (11/2, -1), (9/2, -1), (4, -1),
     (4, -1), (7/2, -1), (5/2, -1), (2, -1), (2, -1), (3/2, -1), (1/2, -1), (0, -1)] := by
  norm_num [get_turbomachinery_outline, tmZ, List.range_succ, sgZ_eval, qmax, emptyStage,
    Prod.ext_iff]

/-! ## List and arithmetic helper lemmas for the real-valued embedding -/

lemma getD_map_of_lt {α β : Type} (f : α → β) (l : List α) (i : ℕ) (d : β)
    (d2 : α) (hi : i < l.length) :
    (l.map f).getD i d = f (l.getD i d2) := by
  rw [List.getD_eq_getElem _ _ (by simpa using hi), List.getD_eq_getElem _ _ hi]
  simp

lemma getD_range_map {α : Type} (g : ℕ → α) (n i : ℕ) (d : α) (hi : i < n) :
    ((List.range n).map g).getD i d = g i := by
  rw [getD_map_of_lt g (List.range n) i d 0 (by simpa using hi)]
  congr 1
  rw [List.getD_eq_getElem _ _ (by simpa using hi)]
  simp

lemma dist_on_circle (c : Pt) (r θ : ℝ) (hr : 0 ≤ r) :
    distE (c.1 + r * Real.cos θ, c.2 + r * Real.sin θ) c = r := by
  have h3 := Real.sin_sq_add_cos_sq θ
  have h2 : (c.1 + r * Real.cos θ - c.1) ^ 2 + (c.2 + r * Real.sin θ - c.2) ^ 2
      = r ^ 2 := by linear_combination (r ^ 2) * h3
  unfold distE
  rw [h2, Real.sqrt_sq hr]

lemma length_get_line (ys : List ℝ) (p1 p2 : Pt) (yi : Option ℤ) :
    (get_line ys p1 p2 yi).length = ys.length := by
  simp [get_line]

lemma length_linspace (a b : ℝ) (n : ℕ) (e : Bool) :
    (linspace a b n e).length = n := by
  cases e <;> simp [linspace]

lemma length_get_arc (l u : Pt) (r : ℝ) (c : Pt) (n : ℕ) (cw e : Bool) :
    (get_arc l u r c n cw e).length = n := by
  simp [get_arc, length_linspace]

lemma four_le_length_get_stage (a : FirtreeAttachment) (n : ℕ) (e : Bool) :
    4 ≤ (get_stage a n e).length := by
  unfold get_stage
  simp only [List.length_append, length_get_line, length_linspace, length_get_arc]
  cases e <;> simp <;> omega

lemma four_le_length_side (a : FirtreeAttachment) (n : ℕ) :
    4 ≤ (attachment_stage_side a n).length := by
  unfold attachment_stage_side
  have key : ∀ (l : List ℕ) (acc : List Pt), 4 ≤ acc.length →
      4 ≤ (l.foldl (fun acc i =>
        acc.dropLast ++
          (if i = a.num_stages - 1 then get_stage a n true else get_stage a n false).map
            (· + acc.getLastD (0, 0))) acc).length := by
    intro l
    induction l with
    | nil => intro acc h; simpa using h
    | cons x xs ih =>
      intro acc hacc
      simp only [List.foldl_cons]
      apply ih
      have hb : 4 ≤ (if x = a.num_stages - 1 then get_stage a n true
          else get_stage a n false).length := by
        split <;> exact four_le_length_get_stage a n _
      simp only [List.length_append, List.length_dropLast, List.length_map]
      omega
  exact key (List.range a.num_stages) (get_stage a n false)
    (four_le_length_get_stage a n false)

lemma two_le_length_left (a : FirtreeAttachment) (n : ℕ) :
    2 ≤ (attachment_left_side a n).length := by
  unfold attachment_left_side
  simp only [List.length_map, List.length_append, List.length_dropLast]
  have := four_le_length_side a n
  omega

lemma headD_append_left {α : Type} (l l2 : List α) (d : α) (h : l ≠ []) :
    (l ++ l2).headD d = l.headD d := by
  cases l with
  | nil => exact absurd rfl h
  | cons a t => simp

lemma headD_dropLast {α : Type} (l : List α) (d : α) (h : 2 ≤ l.length) :
    l.dropLast.headD d = l.headD d := by
  match l with
  | [] => simp at h
  | [a] => simp at h
  | a :: b :: t => simp

lemma getLastD_append_right {α : Type} (l l2 : List α) (d : α) (h : l2 ≠ []) :
    (l ++ l2).getLastD d = l2.getLastD d := by
  rw [List.getLastD_eq_getLast?, List.getLastD_eq_getLast?,
    List.getLast?_append_of_ne_nil l h]

lemma getLastD_singleton_append {α : Type} (l : List α) (x d : α) :
    (l ++ [x]).getLastD d = x := by
  rw [getLastD_append_right l [x] d (by simp)]
  rfl

lemma headD_map_of_ne_nil {α β : Type} (f : α → β) (l : List α) (d : β)
    (d2 : α) (h : l ≠ []) :
    (l.map f).headD d = f (l.headD d2) := by
  cases l with
  | nil => exact absurd rfl h
  | cons a t => simp

lemma getLastD_map_of_ne_nil {α β : Type} (f : α → β) (l : List α) (d : β)
    (d2 : α) (h : l ≠ []) :
    (l.map f).getLastD d = f (l.getLastD d2) := by
  have hs : l.getLast?.isSome := List.getLast?_isSome.mpr h
  obtain ⟨y, hy⟩ := Option.isSome_iff_exists.mp hs
  rw [List.getLastD_eq_getLast?, List.getLastD_eq_getLast?, List.getLast?_map, hy]
  rfl

lemma foldl_max_add (c : ℝ) : ∀ (xs : List ℝ) (x : ℝ),
    (xs.map (· + c)).foldl max (x + c) = xs.foldl max x + c := by
  intro xs
  induction xs with
  | nil => intro x; simp
  | cons y ys ih =>
    intro x
    simp only [List.map_cons, List.foldl_cons]
    rw [max_add_add_right]
    exact ih (max x y)

lemma rmax_map_add (l : List ℝ) (c : ℝ) (h : l ≠ []) :
    rmax (l.map (· + c)) = rmax l + c := by
  cases l with
  | nil => exact absurd rfl h
  | cons x xs =>
    simp only [List.map_cons, rmax]
    exact foldl_max_add c xs x

/-- The assembled pre-shift contour written out: the left side (dropping
its last point), the top arc (dropping its last point), the mirrored
right side, and the closing first point of the left side. -/
lemma pre_attachment_eq (a : FirtreeAttachment) (n : ℕ) :
    pre_attachment a n =
      (attachment_left_side a n).dropLast ++
        ((get_top_arc a ((attachment_left_side a n).getLastD (0, 0)) n).dropLast ++
          (((attachment_left_side a n).reverse.map negx) ++
            [(attachment_left_side a n).headD (0, 0)])) := by
  unfold pre_attachment
  simp [List.append_assoc]

lemma pre_attachment_ne_nil (a : FirtreeAttachment) (n : ℕ) :
    pre_attachment a n ≠ [] := by
  rw [pre_attachment_eq]
  simp

lemma headD_pre_attachment (a : FirtreeAttachment) (n : ℕ) :
    (pre_attachment a n).headD (0, 0) =
      (attachment_left_side a n).headD (0, 0) := by
  have hLdropne : (attachment_left_side a n).dropLast ≠ [] := by
    apply List.ne_nil_of_length_pos
    rw [List.length_dropLast]
    have := two_le_length_left a n
    omega
  rw [pre_attachment_eq, headD_append_left _ _ _ hLdropne,
    headD_dropLast _ _ (two_le_length_left a n)]

lemma getLastD_pre_attachment (a : FirtreeAttachment) (n : ℕ) :
    (pre_attachment a n).getLastD (0, 0) =
      (attachment_left_side a n).headD (0, 0) := by
  rw [pre_attachment_eq, getLastD_append_right _ _ _ (by simp),
    getLastD_append_right _ _ _ (by simp), getLastD_singleton_append]

lemma get_coords_eq (a : FirtreeAttachment) (n : ℕ) :
    get_coords a n = (pre_attachment a n).map
      (· + ((0 : ℝ), -rmax ((pre_attachment a n).map Prod.snd))) := rfl

/-! ## Theorems -/

/-- Claim C1 (bug evaluation): in `stage_geometry` the stator offset is
supposed to align the rotor airfoil's trailing point vertically with the
stator airfoil's leading point, but line 100 of `geometry_2D.py` computes
the stator leading point from `rotor_geometry.airfoils[0]` instead of
`stator_geometry.airfoils[0]`.  On a stage whose rotor spacing (1) and
stator spacing (2) differ, the placed stator airfoil's leading point has
y = 3/2 while the rotor airfoil's trailing point has y = 1: the claimed
coincidence fails. -/
theorem c1_stator_alignment_eval :
    (argminX ((stage_geometry stageC1 stageC1 0 2).airfoils.getD 2 [])).2 = 3/2 ∧
    (argmaxX ((stage_geometry stageC1 stageC1 0 2).airfoils.getD 0 [])).2 = 1 ∧
    (argminX ((stage_geometry stageC1 stageC1 0 2).airfoils.getD 2 [])).2 ≠
      (argmaxX ((stage_geometry stageC1 stageC1 0 2).airfoils.getD 0 [])).2 := by
  norm_num [stage_geometry, row_geometry, stageC1, rowA, rowB, argminX, argmaxX, qmax, qmin,
    List.range_succ]

/-- Claim C2 (counterexample): for an assembly of 3 stages of equal
geometry whose airfoil has a nonzero leading-to-trailing rise (1/2), the
outline has a vertical jump of 1 between the last point of the first
stage's top outline (index 7) and the first point of the second stage's
top outline (index 8), far exceeding the claimed 1e-9 bound. -/
theorem c2_counterexample :
    ¬ (|((get_turbomachinery_outline tmR 0 2).getD 8 (0, 0)).2 -
        ((get_turbomachinery_outline tmR 0 2).getD 7 (0, 0)).2| ≤ 1/1000000000) := by
  rw [outlineR_eval]
  norm_num [List.getD]

/-- Claim C2 (amended): for an assembly of 3 stages of equal geometry
whose airfoil has zero leading-to-trailing rise, the outline produced by
`get_turbomachinery_outline` has no coordinate discontinuity greater
than 1e-9 at any of the four consecutive-stage boundaries (top chain:
point pairs 7-8 and 15-16; bottom chain: pairs 31-32 and 39-40 of the
48-point outline). -/
theorem c2_continuity_zero_rise :
    (|((get_turbomachinery_outline tmZ 0 2).getD 8 (0, 0)).1 -
       ((get_turbomachinery_outline tmZ 0 2).getD 7 (0, 0)).1| ≤ 1/1000000000 ∧
     |((get_turbomachinery_outline tmZ 0 2).getD 8 (0, 0)).2 -
       ((get_turbomachinery_outline tmZ 0 2).getD 7 (0, 0)).2| ≤ 1/1000000000) ∧
    (|((get_turbomachinery_outline tmZ 0 2).getD 16 (0, 0)).1 -
       ((get_turbomachinery_outline tmZ 0 2).getD 15 (0, 0)).1| ≤ 1/1000000000 ∧
     |((get_turbomachinery_outline tmZ 0 2).getD 16 (0, 0)).2 -
       ((get_turbomachinery_outline tmZ 0 2).getD 15 (0, 0)).2| ≤ 1/1000000000) ∧
    (|((get_turbomachinery_outline tmZ 0 2).getD 32 (0, 0)).1 -
       ((get_turbomachinery_outline tmZ 0 2).getD 31 (0, 0)).1| ≤ 1/1000000000 ∧
     |((get_turbomachinery_outline tmZ 0 2).getD 32 (0, 0)).2 -
       ((get_turbomachinery_outline tmZ 0 2).getD 31 (0, 0)).2| ≤ 1/1000000000) ∧
    (|((get_turbomachinery_outline tmZ 0 2).getD 40 (0, 0)).1 -
       ((get_turbomachinery_outline tmZ 0 2).getD 39 (0, 0)).1| ≤ 1/1000000000 ∧
     |((get_turbomachinery_outline tmZ 0 2).getD 40 (0, 0)).2 -
       ((get_turbomachinery_outline tmZ 0 2).getD 39 (0, 0)).2| ≤ 1/1000000000) := by
  rw [outlineZ_eval]
  norm_num [List.getD]

/-- Claim C3 (counterexample): `get_line` called with
`point1.x == point2.x` does not fail and does produce output: it returns
one point per requested y-value whose x-coordinate is non-finite (numpy
division by zero).  No `DegenerateLineError` exists in the code. -/
theorem c3_counterexample :
    get_lineF [0] (1, 1) (1, 2) none = [(none, 0)] := by
  norm_num [get_lineF, npDiv, npSub, npMul]

/-- Claim C3 (amended): the code performs no vertical-line check; with
the default intercept mode, `get_line` on two points of equal
x-coordinate silently returns one point per requested y-value whose
x-coordinate is non-finite (inf/nan from numpy division by zero), rather
than raising any error. -/
theorem c3_degenerate_nonfinite (ys : List ℚ) (x y1 y2 : ℚ) :
    (get_lineF ys (x, y1) (x, y2) none).map Prod.fst =
      ys.map (fun _ => none) := by
  simp [get_lineF, npDiv, npSub, npMul, sub_self]

/-- Claim C10: for two input points with distinct x-coordinates but equal
y-coordinates, `get_line`'s slope is zero and the solve `x = (y-b)/m`
divides by zero, so every returned point has a non-finite x-coordinate
(this even includes the common y, where numpy produces nan). -/
theorem c10_horizontal_nonfinite (ys : List ℚ) (x1 x2 y0 : ℚ)
    (y_int : Option ℤ) (h : x1 ≠ x2) :
    (get_lineF ys (x1, y0) (x2, y0) y_int).map Prod.fst =
      ys.map (fun _ => none) := by
  have hx : x2 - x1 ≠ 0 := sub_ne_zero.mpr (Ne.symm h)
  cases y_int <;>
    simp [get_lineF, npDiv, npSub, npMul, sub_self, hx]

/-- Claim C10 (witness): concrete instance of the horizontal-line
non-finite behaviour at `point1 = (0,5)`, `point2 = (1,5)`, `ys = [3]`. -/
theorem c10_witness :
    ((0 : ℚ) ≠ 1) ∧
    (get_lineF [3] ((0 : ℚ), 5) ((1 : ℚ), 5) none).map Prod.fst = [none] :=
  ⟨by decide, c10_horizontal_nonfinite [3] 0 1 5 none (by decide)⟩

/-- Claim C8 (counterexample): the bottom outline of `row_geometry` is
not the reflection (y-negation) of the reversed top outline: on a row
whose airfoil rises by 1, the first bottom point is (1, 1/2) while the
mirrored reversed top starts at (1, -3/2). -/
theorem c8_counterexample :
    (row_geometry rowW 0 0 0 1).bottom_outline ≠
      (row_geometry rowW 0 0 0 1).top_outline.reverse.map
        (fun p => (p.1, -p.2)) := by
  norm_num [row_geometry, rowW, argminX, argmaxX, qmax, qmin, Prod.ext_iff]

/-- Claim C8 (amended): `row_geometry` sets `height = row.s * num_blades`
and returns the 4-point top polyline from (0, height/2) to
(leading_gap, height/2) to (leading_gap + width, height/2 + rise) to
(leading_gap + width + trailing_gap, height/2 + rise), where `rise` is
the airfoil's leading-to-trailing vertical rise; the bottom outline is
the reversed top outline translated down by `height` (a reflection only
when the rise is zero), so that top ++ bottom traverses a closed loop. -/
theorem c8_row_outline (row : BladeRow2D) (sn : ℕ) (lg tg : ℚ) (nb : ℕ) :
    (row_geometry row sn lg tg nb).top_outline =
      [((0 : ℚ), row.s * nb / 2),
       (lg, row.s * nb / 2),
       (lg + (qmax ((row.airfoils.getD sn []).map Prod.fst) -
              qmin ((row.airfoils.getD sn []).map Prod.fst)),
        row.s * nb / 2 +
          ((argmaxX (row.airfoils.getD sn [])).2 -
           (argminX (row.airfoils.getD sn [])).2)),
       (lg + (qmax ((row.airfoils.getD sn []).map Prod.fst) -
              qmin ((row.airfoils.getD sn []).map Prod.fst)) + tg,
        row.s * nb / 2 +
          ((argmaxX (row.airfoils.getD sn [])).2 -
           (argminX (row.airfoils.getD sn [])).2))] ∧
    (row_geometry row sn lg tg nb).bottom_outline =
      (row_geometry row sn lg tg nb).top_outline.reverse.map
        (fun p => (p.1, p.2 - row.s * nb)) := by
  refine ⟨rfl, ?_⟩
  simp only [row_geometry, List.reverse_cons, List.reverse_nil, List.nil_append,
    List.cons_append, List.map_cons, List.map_nil, List.cons.injEq,
    Prod.mk.injEq, and_true]
  and_intros <;> first | trivial | ring

/-- Claim C4 (counterexample): construction of a `FirtreeAttachment` with
every radius and length negative, `num_stages = 0` and `max_length`
exceeding the disk diameter does NOT fail fast: the constructor performs
no validation and happily produces arithmetic results, e.g. the derived
outer-circle lower tangent point (-1, 0). -/
theorem c4_no_validation_counterexample :
    (mkFirtree 0 0 (-1) (-1) (-1) (-1) (-1) (-1) 0 (-1)).outer_circle_lower_tangent
      = (-1, 0) := by
  simp [mkFirtree, Real.cos_zero, Real.sin_zero, Prod.ext_iff]

/-- Claim C4 (amended): no `InvalidParameterError` exists anywhere in the
code; for every invalid parameterization (non-positive radius or length,
zero stage count, or `max_length` exceeding the disk diameter)
construction succeeds and computes the derived reference points by the
usual formulas, letting invalid values flow into the arithmetic (the
out-of-domain arcsine of `get_top_arc` likewise yields a non-finite
numpy value rather than an error). -/
theorem c4_construction_total (gamma beta ll lu Ri Ro R_dove max_length : ℝ)
    (num_stages : ℕ) (disk_radius : ℝ)
    (h : ll ≤ 0 ∨ lu ≤ 0 ∨ Ri ≤ 0 ∨ Ro ≤ 0 ∨ R_dove ≤ 0 ∨ max_length ≤ 0 ∨
         num_stages = 0 ∨ 2 * disk_radius < max_length) :
    (mkFirtree gamma beta ll lu Ri Ro R_dove max_length num_stages disk_radius).origin
        = (0, 0) ∧
    (mkFirtree gamma beta ll lu Ri Ro R_dove max_length num_stages disk_radius).outer_circle_lower_tangent
        = (ll * Real.cos beta, ll * Real.sin beta) ∧
    (mkFirtree gamma beta ll lu Ri Ro R_dove max_length num_stages disk_radius).dove_circle_center
        = (R_dove * Real.sin beta, -R_dove * Real.cos beta) := by
  refine ⟨rfl, ?_, rfl⟩
  simp [mkFirtree, Prod.ext_iff]

/-- Claim C4 (witness): the invalid parameterization with all scalars -1
and zero stages satisfies the invalidity hypothesis and still constructs. -/
theorem c4_construction_total_witness :
    ((-1 : ℝ) ≤ 0 ∨ (-1 : ℝ) ≤ 0 ∨ (-1 : ℝ) ≤ 0 ∨ (-1 : ℝ) ≤ 0 ∨ (-1 : ℝ) ≤ 0 ∨
      (-1 : ℝ) ≤ 0 ∨ (0 : ℕ) = 0 ∨ 2 * (-1 : ℝ) < -1) ∧
    (mkFirtree 0 0 (-1) (-1) (-1) (-1) (-1) (-1) 0 (-1)).origin = (0, 0) :=
  ⟨Or.inr (Or.inr (Or.inr (Or.inr (Or.inr (Or.inr (Or.inl rfl)))))),
   (c4_construction_total 0 0 (-1) (-1) (-1) (-1) (-1) (-1) 0 (-1)
      (Or.inr (Or.inr (Or.inr (Or.inr (Or.inr (Or.inr (Or.inl rfl)))))))).1⟩

/-- Claim C5: for `count ≥ 2` (and a nonnegative radius, as at every call
site), `get_arc` with the endpoint included returns exactly `count`
points of the form `center + radius*(cos θᵢ, sin θᵢ)` at angles evenly
spaced between the (wrap-adjusted) lower angle and the upper angle, where
2π is added to the lower `atan2` angle when not clockwise; consequently
every returned point lies at distance exactly `radius` from `center`. -/
theorem c5_arc_spec (lower_point upper_point : Pt) (radius : ℝ) (center : Pt)
    (num_points : ℕ) (is_clockwise : Bool)
    (hn : 2 ≤ num_points) (hr : 0 ≤ radius) :
    (get_arc lower_point upper_point radius center num_points is_clockwise true).length
      = num_points ∧
    ∀ i, i < num_points →
      (get_arc lower_point upper_point radius center num_points is_clockwise true).getD i (0, 0) =
        (center.1 + radius * Real.cos
          ((if is_clockwise then
              atan2 (lower_point.2 - center.2) (lower_point.1 - center.1)
            else
              atan2 (lower_point.2 - center.2) (lower_point.1 - center.1) + 2 * Real.pi) +
            (i : ℝ) * ((atan2 (upper_point.2 - center.2) (upper_point.1 - center.1) -
              (if is_clockwise then
                atan2 (lower_point.2 - center.2) (lower_point.1 - center.1)
              else
                atan2 (lower_point.2 - center.2) (lower_point.1 - center.1) + 2 * Real.pi)) /
              ((num_points : ℝ) - 1))),
         center.2 + radius * Real.sin
          ((if is_clockwise then
              atan2 (lower_point.2 - center.2) (lower_point.1 - center.1)
            else
              atan2 (lower_point.2 - center.2) (lower_point.1 - center.1) + 2 * Real.pi) +
            (i : ℝ) * ((atan2 (upper_point.2 - center.2) (upper_point.1 - center.1) -
              (if is_clockwise then
                atan2 (lower_point.2 - center.2) (lower_point.1 - center.1)
              else
                atan2 (lower_point.2 - center.2) (lower_point.1 - center.1) + 2 * Real.pi)) /
              ((num_points : ℝ) - 1)))) ∧
      distE ((get_arc lower_point upper_point radius center num_points is_clockwise true).getD i (0, 0))
        center = radius := by
  refine ⟨by simp [get_arc, linspace], ?_⟩
  intro i hi
  have harc : (get_arc lower_point upper_point radius center num_points is_clockwise true).getD i (0, 0) =
      (center.1 + radius * Real.cos
        ((if is_clockwise then
            atan2 (lower_point.2 - center.2) (lower_point.1 - center.1)
          else
            atan2 (lower_point.2 - center.2) (lower_point.1 - center.1) + 2 * Real.pi) +
          (i : ℝ) * ((atan2 (upper_point.2 - center.2) (upper_point.1 - center.1) -
            (if is_clockwise then
              atan2 (lower_point.2 - center.2) (lower_point.1 - center.1)
            else
              atan2 (lower_point.2 - center.2) (lower_point.1 - center.1) + 2 * Real.pi)) /
            ((num_points : ℝ) - 1))),
       center.2 + radius * Real.sin
        ((if is_clockwise then
            atan2 (lower_point.2 - center.2) (lower_point.1 - center.1)
          else
            atan2 (lower_point.2 - center.2) (lower_point.1 - center.1) + 2 * Real.pi) +
          (i : ℝ) * ((atan2 (upper_point.2 - center.2) (upper_point.1 - center.1) -
            (if is_clockwise then
              atan2 (lower_point.2 - center.2) (lower_point.1 - center.1)
            else
              atan2 (lower_point.2 - center.2) (lower_point.1 - center.1) + 2 * Real.pi)) /
            ((num_points : ℝ) - 1)))) := by
    unfold get_arc linspace
    simp only [if_true]
    rw [List.map_map]
    exact getD_range_map _ num_points i (0, 0) hi
  refine ⟨harc, ?_⟩
  rw [harc]
  exact dist_on_circle center radius _ hr

/-- Claim C5 (witness): the arc from (1,0) to (0,1) on the unit circle
about the origin with 2 points satisfies the hypotheses, has length 2 and
its first point lies at distance 1 from the center. -/
theorem c5_arc_spec_witness :
    2 ≤ 2 ∧ (0 : ℝ) ≤ 1 ∧
    (get_arc ((1 : ℝ), (0 : ℝ)) (0, 1) 1 (0, 0) 2 true true).length = 2 ∧
    distE ((get_arc ((1 : ℝ), (0 : ℝ)) (0, 1) 1 (0, 0) 2 true true).getD 0 (0, 0))
      (0, 0) = 1 :=
  ⟨Nat.le_refl 2, zero_le_one,
   (c5_arc_spec ((1 : ℝ), (0 : ℝ)) (0, 1) 1 (0, 0) 2 true (Nat.le_refl 2) zero_le_one).1,
   ((c5_arc_spec ((1 : ℝ), (0 : ℝ)) (0, 1) 1 (0, 0) 2 true (Nat.le_refl 2) zero_le_one).2
      0 (by omega)).2⟩

/-- Claim C6: for every attachment and point count, the contour returned
by `get_coords` is closed — its first point equals its last point exactly
— and after the final vertical shift its maximum y-coordinate is exactly
0.  Proved for all parameter sets and stage counts, hence in particular
for `num_stages` in {1, 2, 5}. -/
theorem c6_closed_contour (a : FirtreeAttachment) (n : ℕ) :
    (get_coords a n).headD (0, 0) = (get_coords a n).getLastD (0, 0) ∧
    rmax ((get_coords a n).map Prod.snd) = 0 := by
  have hAne := pre_attachment_ne_nil a n
  constructor
  · show ((pre_attachment a n).map
        (· + ((0 : ℝ), -rmax ((pre_attachment a n).map Prod.snd)))).headD (0, 0) =
      ((pre_attachment a n).map
        (· + ((0 : ℝ), -rmax ((pre_attachment a n).map Prod.snd)))).getLastD (0, 0)
    rw [headD_map_of_ne_nil _ _ _ (0, 0) hAne,
      getLastD_map_of_ne_nil _ _ _ (0, 0) hAne,
      headD_pre_attachment, getLastD_pre_attachment]
  · show rmax ((((pre_attachment a n).map
        (· + ((0 : ℝ), -rmax ((pre_attachment a n).map Prod.snd)))).map Prod.snd)) = 0
    rw [List.map_map]
    have hcomp : (Prod.snd ∘ (· + ((0 : ℝ), -rmax ((pre_attachment a n).map Prod.snd)))) =
        ((· + (-rmax ((pre_attachment a n).map Prod.snd))) ∘ Prod.snd) := rfl
    rw [hcomp, ← List.map_map,
      rmax_map_add _ _ (by simpa using hAne)]
    exact add_neg_cancel _

/-- Claim C7: in the contour returned by `get_coords`, the block occupied
by the right side is the exact x-negation of the reversed left side: the
contour's initial segment is the (vertically shifted) left side without
its last point, and the block following the top arc equals the reversed
shifted left side with x negated (the vertical shift has zero
x-component, so it commutes with the mirroring). -/
theorem c7_mirror_symmetry (a : FirtreeAttachment) (n : ℕ) :
    (get_coords a n).take ((attachment_left_side a n).length - 1) =
      ((attachment_left_side a n).map
        (· + ((0 : ℝ), -rmax ((pre_attachment a n).map Prod.snd)))).dropLast ∧
    ((get_coords a n).drop
        (((attachment_left_side a n).length - 1) +
          ((get_top_arc a ((attachment_left_side a n).getLastD (0, 0)) n).length - 1))).take
        (attachment_left_side a n).length =
      (((attachment_left_side a n).map
        (· + ((0 : ℝ), -rmax ((pre_attachment a n).map Prod.snd)))).reverse).map negx := by
  have hcoords : get_coords a n =
      ((attachment_left_side a n).dropLast ++
        ((get_top_arc a ((attachment_left_side a n).getLastD (0, 0)) n).dropLast ++
          (((attachment_left_side a n).reverse.map negx) ++
            [(attachment_left_side a n).headD (0, 0)]))).map
        (· + ((0 : ℝ), -rmax ((pre_attachment a n).map Prod.snd))) := by
    rw [get_coords_eq]
    congr 1
    exact pre_attachment_eq a n
  constructor
  · rw [hcoords, ← List.map_take]
    have h1 : (attachment_left_side a n).length - 1 =
        (attachment_left_side a n).dropLast.length :=
      (List.length_dropLast _).symm
    rw [h1, List.take_left, List.map_dropLast]
  · rw [hcoords, ← List.map_drop]
    have h2 : ((attachment_left_side a n).length - 1) +
        ((get_top_arc a ((attachment_left_side a n).getLastD (0, 0)) n).length - 1) =
        ((attachment_left_side a n).dropLast ++
          (get_top_arc a ((attachment_left_side a n).getLastD (0, 0)) n).dropLast).length := by
      simp [List.length_append, List.length_dropLast]
    rw [h2, ← List.append_assoc, List.drop_left, ← List.map_take]
    have h3 : (attachment_left_side a n).length =
        ((attachment_left_side a n).reverse.map negx).length := by simp
    rw [h3, List.take_left]
    simp only [List.map_reverse, List.map_map]
    have hfun : ((fun x => x + ((0 : ℝ), -rmax (List.map Prod.snd (pre_attachment a n)))) ∘ negx)
        = (negx ∘ fun x => x + ((0 : ℝ), -rmax (List.map Prod.snd (pre_attachment a n)))) := by
      funext p
      simp only [Function.comp_apply, negx, Prod.ext_iff]
      constructor
      · show -p.1 + 0 = -(p.1 + 0)
        ring
      · rfl
    rw [hfun]

/-- Claim C9: no operation of `FirtreeAttachment` mutates the object: in
the state-passing translation of the Python methods (each returns its
result together with the possibly-updated receiver), `get_stage`,
`get_dove_arc`, `get_top_arc` and `get_coords` all return the receiver
unchanged, with every input scalar and every derived reference point
intact. -/
theorem c9_no_mutation (a : FirtreeAttachment) (num_arc_points : ℕ)
    (end_stage : Bool) (start_point : Pt) :
    (get_stageS a num_arc_points end_stage).2 = a ∧
    (get_dove_arcS a num_arc_points).2 = a ∧
    (get_top_arcS a start_point num_arc_points).2 = a ∧
    (get_coordsS a num_arc_points).2 = a :=
  ⟨rfl, rfl, rfl, rfl⟩

end TD
